import Mathlib

/-!
Verification of the HP1000 weewx driver (src/HP1000.py) against its
natural-language specification.

The driver's pure computational core is shallowly embedded here:

* `convert_units` — the exception-suppressing wrapper around weewx's
  `convertStd` (HP1000.py lines 293-301).  The external `convertStd`
  routine is modelled as a parameter returning `Option` (where `none`
  models the routine raising an exception).
* `genLoopStep` — the packet-building body of `genLoopPackets`
  (lines 602-718): sentinel handling, unit dispatch and the
  incremental-rain computation with its carried baseline state.
* `binSearchGo` / `searchStartRecord` — the resume-point binary search of
  `genStartupRecords` (lines 819-858), fuel-indexed (the fuel chosen by
  the wrapper always suffices, mirroring the source's `while True`).
* `archPacketOf`, `processRecords`, `innerLoop`, `findYearIndexNoTs`,
  `findYearIndexTs`, `resumeState`, `genStartupGo` — the rest of
  `genStartupRecords` (lines 778-947): year-slot selection, paginated
  history reads and the outer re-read loop.

Python floats are modelled as `ℚ`; machine integers as `ℤ`/`ℕ` matching
the struct formats (`h`/`b` signed, `H`/`I` unsigned).  Calendar
datetimes are modelled as abstract `ℕ` instants together with projection
parameters `yearOf` (the `.year` attribute) and `todOf` (the `.time()`
time-of-day used for the day-rollover tests); `time.mktime` /
`datetime.fromtimestamp` round-trips are the identity on these
instants.  `math.pow(x, 1.5)` (the Beaufort inversion), which is
irrational, is modelled by a function parameter `pow15`.
-/

namespace HP1000

/-- `weewx.METRICWX`, the canonical unit-system tag of every packet. -/
def METRICWX : ℕ := 17

/-- A weewx `ValueTuple` as used by the driver: (value, unit name, unit group). -/
def ValueT : Type := ℚ × String × String

/-- `convert_units` (lines 293-301): call `convertStd` and, if it raises
(modelled by the parameter returning `none`), fall back to returning the
source tuple unchanged. -/
def convert_units (convertStd : ValueT → ℕ → Option ValueT)
    (source : ValueT) (target : ℕ) : ValueT :=
  match convertStd source target with
  | some result => result
  | none => source

/-- The raw fields of a decoded NOWRECORD live reading
(`interp_data` of `genLoopPackets`, struct format `8s8s16s8shbb14fbbh`):
index 4 is a signed 16-bit wind direction, 5/6 are signed bytes,
7-20 are floats, 21 is a signed byte.  Fields 15 and 17-19 (rain rate and
weekly/monthly/yearly rain) are carried but never read by the packet
builder. -/
structure LiveReading where
  windDirRaw : ℤ        -- interp_data[4]
  inHumidityRaw : ℤ     -- interp_data[5]
  outHumidityRaw : ℤ    -- interp_data[6]
  inTempRaw : ℚ         -- interp_data[7]
  pressureRaw : ℚ       -- interp_data[8]
  barometerRaw : ℚ      -- interp_data[9]
  outTempRaw : ℚ        -- interp_data[10]
  dewPointRaw : ℚ       -- interp_data[11]
  windChillRaw : ℚ      -- interp_data[12]
  windSpeedRaw : ℚ      -- interp_data[13]
  windGustRaw : ℚ       -- interp_data[14]
  rainRateRaw : ℚ       -- interp_data[15]
  dailyRainRaw : ℚ      -- interp_data[16]
  weeklyRainRaw : ℚ     -- interp_data[17]
  monthlyRainRaw : ℚ    -- interp_data[18]
  yearlyRainRaw : ℚ     -- interp_data[19]
  radiationRaw : ℚ      -- interp_data[20]
  uvRaw : ℤ             -- interp_data[21]
deriving DecidableEq

/-- The rain baseline carried across loop iterations
(`self.last_rain_value`, `self.last_rain_time`). -/
structure LoopState where
  lastRainValue : Option ℚ
  lastRainTime : Option ℕ
deriving DecidableEq

/-- The LOOP packet built by `genLoopPackets`.  A `none` field models the
Python value `None`; for `barometer` it also models the dictionary key
being left unset (which the source does when the raw barometer is in the
sentinel range). -/
structure LoopPacket where
  dateTime : ℕ
  usUnits : ℕ
  windDir : Option ℤ
  inHumidity : Option ℤ
  outHumidity : Option ℤ
  inTemp : Option ℚ
  outTemp : Option ℚ
  dewPoint : Option ℚ
  windChill : Option ℚ
  pressure : Option ℚ
  barometer : Option ℚ
  windSpeed : Option ℚ
  windGust : Option ℚ
  radiation : Option ℚ
  uv : Option ℤ
  rain : Option ℚ
deriving DecidableEq

/-- One iteration of the body of `genLoopPackets` (lines 602-718):
build the LOOP packet from a decoded reading and update the rain
baseline.  `convertStd` models `weewx.units.convertStd` (`none` =
raises), `pow15` models `math.pow(·, 1.5)`, `todOf` the `.time()`
projection of an instant, `currentTime` the value of
`datetime.datetime.now()`. -/
def genLoopStep (convertStd : ValueT → ℕ → Option ValueT) (pow15 : ℚ → ℚ)
    (todOf : ℕ → ℕ)
    (temperatureUnit pressureUnit windUnit rainUnit solarUnit : ℕ)
    (r : LiveReading) (currentTime : ℕ) (st : LoopState) :
    LoopPacket × LoopState :=
  let cu := fun (v : ValueT) => (convert_units convertStd v METRICWX).1
  let tempSU := if temperatureUnit = 0 then "degree_C" else "degree_F"
  let inTemp := if r.inTempRaw = 32767 then none
    else some (cu (r.inTempRaw, tempSU, "group_temperature"))
  let outTemp := if r.outTempRaw ≥ 3276 then none
    else some (cu (r.outTempRaw, tempSU, "group_temperature"))
  let dewPoint := if r.dewPointRaw ≥ 3276 then none
    else some (cu (r.dewPointRaw, tempSU, "group_temperature"))
  let windChill := if r.windChillRaw ≥ 3276 then none
    else some (cu (r.windChillRaw, tempSU, "group_temperature"))
  let pressSU := if pressureUnit = 0 then "hPa"
    else if pressureUnit = 1 then "inHg" else "mmHg"
  let pressure0 := if r.pressureRaw ≥ 3276 then none
    else some (cu (r.pressureRaw, pressSU, "group_pressure"))
  -- lines 646-650: when the raw barometer is a sentinel the source sets
  -- _packet['pressure'] (not 'barometer') to None and leaves the
  -- 'barometer' key unset; otherwise it sets 'barometer'.
  let pressure := if r.barometerRaw ≥ 3276 then none else pressure0
  let barometer := if r.barometerRaw ≥ 3276 then none
    else some (cu (r.barometerRaw, pressSU, "group_pressure"))
  -- lines 652-671: wind-unit dispatch; Beaufort and ft/s rescale the raw
  -- values in place before the sentinel test.
  let windInfo : String × ℚ × ℚ :=
    if windUnit = 0 then ("meter_per_second", r.windSpeedRaw, r.windGustRaw)
    else if windUnit = 1 then ("km_per_hour", r.windSpeedRaw, r.windGustRaw)
    else if windUnit = 2 then ("knot", r.windSpeedRaw, r.windGustRaw)
    else if windUnit = 3 then ("mile_per_hour", r.windSpeedRaw, r.windGustRaw)
    else if windUnit = 4 then
      ("meter_per_second", 0.836 * pow15 r.windSpeedRaw, 0.836 * pow15 r.windGustRaw)
    else ("meter_per_second", r.windSpeedRaw * 0.3048, r.windGustRaw * 0.3048)
  let windSpeed := if windInfo.2.1 ≥ 3276 then none
    else some (cu (windInfo.2.1, windInfo.1, "group_speed"))
  let windGust := if windInfo.2.2 ≥ 3276 then none
    else some (cu (windInfo.2.2, windInfo.1, "group_speed"))
  let radiation := if r.radiationRaw > 2147480 then none
    else if solarUnit = 0 then some (r.radiationRaw * 4.02)
    else if solarUnit = 1 then some (r.radiationRaw * 0.04358)
    else some r.radiationRaw
  let uv := if r.uvRaw < 0 then none else some r.uvRaw
  -- lines 697-718: incremental rain from the carried baseline.
  let rain : Option ℚ :=
    match st.lastRainValue, st.lastRainTime with
    | none, _ => none
    | some _, none => none  -- unreachable: the source updates both fields together
    | some lv, some lt =>
      if r.dailyRainRaw ≥ 214748367 then none
      else if todOf currentTime > todOf lt ∧ r.dailyRainRaw ≥ lv then
        (if rainUnit = 0 then some (r.dailyRainRaw - lv)
         else some ((r.dailyRainRaw - lv) * 25.4))
      else some 0
  ({ dateTime := currentTime
     usUnits := METRICWX
     windDir := if r.windDirRaw = 32767 then none else some r.windDirRaw
     inHumidity := some r.inHumidityRaw  -- line 605: no sentinel test on inHumidity
     outHumidity := if r.outHumidityRaw = 127 then none else some r.outHumidityRaw
     inTemp := inTemp
     outTemp := outTemp
     dewPoint := dewPoint
     windChill := windChill
     pressure := pressure
     barometer := barometer
     windSpeed := windSpeed
     windGust := windGust
     radiation := radiation
     uv := uv
     rain := rain },
   { lastRainValue := some r.dailyRainRaw, lastRainTime := some currentTime })

/-- One decoded HISTORY_DATA record (struct format `Q12h7I` at lines
886-887): `recTime` is the decoded datetime of `rec_data[0]` (an abstract
instant), the twelve signed shorts are `rec_data[1..12]`, the seven
unsigned ints `rec_data[13..19]`. -/
structure ArchRecord where
  recTime : ℕ           -- decoded from rec_data[0], 100 ns ticks since 1601
  inTempRaw : ℤ         -- rec_data[1]
  inHumidityRaw : ℤ     -- rec_data[2]
  pressureRaw : ℤ       -- rec_data[3]
  barometerRaw : ℤ      -- rec_data[4]
  outTempRaw : ℤ        -- rec_data[5]
  outHumidityRaw : ℤ    -- rec_data[6]
  dewPointRaw : ℤ       -- rec_data[7]
  windchillRaw : ℤ      -- rec_data[8]
  heatIndexRaw : ℤ      -- rec_data[9] (unused by the source)
  windSpeedRaw : ℤ      -- rec_data[10]
  windGustRaw : ℤ       -- rec_data[11]
  windDirRaw : ℤ        -- rec_data[12]
  rainRateRaw : ℕ       -- rec_data[13] (unused by the source)
  dailyRainRaw : ℕ      -- rec_data[14]
  weeklyRainRaw : ℕ     -- rec_data[15] (unused)
  monthlyRainRaw : ℕ    -- rec_data[16] (unused)
  yearlyRainRaw : ℕ     -- rec_data[17] (unused)
  uvRaw : ℕ             -- rec_data[18]
  radiationRaw : ℕ      -- rec_data[19]
deriving DecidableEq

/-- An archive packet as yielded by `genStartupRecords` (lines 891-932). -/
structure ArchPacket where
  usUnits : ℕ
  dateTime : ℕ
  inTemp : Option ℚ
  inHumidity : Option ℤ
  pressure : Option ℚ
  barometer : Option ℚ
  outTemp : Option ℚ
  outHumidity : Option ℤ
  dewPoint : Option ℚ
  windchill : Option ℚ
  windSpeed : Option ℚ
  windGust : Option ℚ
  windDir : Option ℤ
  rain : Option ℚ
  uv : Option ℕ
  radiation : Option ℚ
  interval : ℕ
deriving DecidableEq

/-- The device's history index and record store as seen through the
HISTORY_FILE / HISTORY_DATA round-trips.  `yearAt i` is `interp_data[i]`
(the stored year of slot `i`, `i ∈ [7, 14]`, newest year first, 0 =
unused); `countAt i` is `interp_data[i + 8]` (that year's record count);
`recordAt i j` is record number `j` of the year at slot `i`. -/
structure Archive where
  yearAt : ℕ → ℕ
  countAt : ℕ → ℕ
  recordAt : ℕ → ℕ → ArchRecord

/-- Build one archive packet (lines 891-932) from a record, the rain
baseline `lastRain` (`last_rain_value`) and the previous record date
`lastDate` (`last_record_date`); also return the value stored back into
`last_rain_value` (line 922). -/
def archPacketOf (todOf : ℕ → ℕ) (rec : ArchRecord)
    (lastRain : Option ℚ) (lastDate : Option ℕ) : ArchPacket × Option ℚ :=
  let rain : Option ℚ :=
    if rec.dailyRainRaw = 2147483647 then none
    else some ((rec.dailyRainRaw : ℚ) / 10)
  let pktRain : Option ℚ :=
    match lastDate, rain, lastRain with
    | some ld, some rv, some lv =>
      if todOf ld > todOf rec.recTime ∨ lv > rv then some 0 else some (rv - lv)
    | _, _, _ => none
  ({ usUnits := METRICWX
     dateTime := rec.recTime
     inTemp := if rec.inTempRaw = 32767 then none else some ((rec.inTempRaw : ℚ) / 10)
     inHumidity := if rec.inHumidityRaw = 32767 then none else some rec.inHumidityRaw
     pressure := if rec.pressureRaw = 32767 then none else some ((rec.pressureRaw : ℚ) / 10)
     barometer := if rec.barometerRaw = 32767 then none else some ((rec.barometerRaw : ℚ) / 10)
     outTemp := if rec.outTempRaw = 32767 then none else some ((rec.outTempRaw : ℚ) / 10)
     outHumidity := if rec.outHumidityRaw = 127 then none else some rec.outHumidityRaw
     dewPoint := if rec.dewPointRaw = 32767 then none else some ((rec.dewPointRaw : ℚ) / 10)
     windchill := if rec.windchillRaw = 32767 then none else some ((rec.windchillRaw : ℚ) / 10)
     windSpeed := if rec.windSpeedRaw = 32767 then none else some ((rec.windSpeedRaw : ℚ) / 10)
     windGust := if rec.windGustRaw = 32767 then none else some ((rec.windGustRaw : ℚ) / 10)
     windDir := if rec.windDirRaw = 32767 then none else some rec.windDirRaw
     rain := pktRain
     uv := if rec.uvRaw = 32767 then none else some (rec.uvRaw / 250)
     radiation := if rec.radiationRaw = 2147483647 then none
       else some ((rec.radiationRaw : ℚ) / 1267)
     interval := 5 }, rain)

/-- Process a run of records in order (the `while record_count > 0` loop
at lines 885-937), threading the rain baseline and the previous record
date; returns the yielded packets and the final baseline/date. -/
def processRecords (todOf : ℕ → ℕ) :
    List ArchRecord → Option ℚ → Option ℕ →
    List ArchPacket × Option ℚ × Option ℕ
  | [], lastRain, lastDate => ([], lastRain, lastDate)
  | rec :: rest, lastRain, lastDate =>
    let pr := archPacketOf todOf rec lastRain lastDate
    let tail := processRecords todOf rest pr.2 (some rec.recTime)
    (pr.1 :: tail.1, tail.2)

/-- The consecutive records `start`, `start+1`, …, `start+n-1` of the
year at slot `yi` (one HISTORY_DATA batch). -/
def recordsFrom (arch : Archive) (yi : ℕ) : ℕ → ℕ → List ArchRecord
  | _, 0 => []
  | start, n + 1 => arch.recordAt yi start :: recordsFrom arch yi (start + 1) n

/-- One `getHistoryData(year, record_count, starting_record)` request
issued by the pagination loop; `yearIdx` additionally logs the slot index
the request was made for. -/
structure Req where
  yearIdx : ℕ
  year : ℕ
  recCount : ℕ
  startRec : ℕ
deriving DecidableEq

/-- The `while year_index >= 7` pagination loop of `genStartupRecords`
(lines 872-943), fuel-indexed (the source's loop always terminates; with
insufficient fuel the model simply stops early, which no theorem relies
on).  Returns the requests issued, the packets yielded, and the final
`last_rain_value`, `last_record_date` and `record_datetime` variables. -/
def innerLoop (arch : Archive) (todOf : ℕ → ℕ) :
    ℕ → ℕ → ℕ → Option ℚ → Option ℕ → Option ℕ →
    List Req × List ArchPacket × Option ℚ × Option ℕ × Option ℕ
  | 0, _, _, lastRain, lastDate, recDt => ([], [], lastRain, lastDate, recDt)
  | fuel + 1, yearIndex, startRecord, lastRain, lastDate, recDt =>
    if yearIndex < 7 then ([], [], lastRain, lastDate, recDt)
    else
      let count := arch.countAt yearIndex
      -- lines 875-877: record_count = 100, clipped to count - start - 1
      -- if 100 + start would reach the year's record count.
      let rc : ℤ := if (count : ℤ) ≤ 100 + (startRecord : ℤ)
        then (count : ℤ) - (startRecord : ℤ) - 1 else 100
      if 0 < rc then
        let rcn := rc.toNat
        let req : Req := ⟨yearIndex, arch.yearAt yearIndex, rcn, startRecord⟩
        let batch := processRecords todOf
          (recordsFrom arch yearIndex startRecord rcn) lastRain lastDate
        -- after a non-empty batch, `record_datetime` equals the last
        -- processed record's datetime, which is also the new
        -- `last_record_date`.
        let startRecord2 := startRecord + rcn
        if (count : ℤ) - 1 ≤ (startRecord2 : ℤ) then
          let rest := innerLoop arch todOf fuel (yearIndex - 1) 0
            batch.2.1 batch.2.2 batch.2.2
          (req :: rest.1, batch.1 ++ rest.2.1, rest.2.2)
        else
          let rest := innerLoop arch todOf fuel yearIndex startRecord2
            batch.2.1 batch.2.2 batch.2.2
          (req :: rest.1, batch.1 ++ rest.2.1, rest.2.2)
      else
        if (count : ℤ) - 1 ≤ (startRecord : ℤ) then
          innerLoop arch todOf fuel (yearIndex - 1) 0 lastRain lastDate recDt
        else
          -- unreachable: rc ≤ 0 forces start ≥ count - 1 (the source
          -- would loop forever here).
          innerLoop arch todOf fuel yearIndex startRecord lastRain lastDate recDt

/-- The eight year-slot indices of the HISTORY_FILE reply,
`enumerate(interp_data[7:15], 7)`. -/
def slotList : List ℕ := [7, 8, 9, 10, 11, 12, 13, 14]

/-- Year-slot selection when no timestamp is given (line 797): the last
element of the ascending list of populated slot indices, i.e. the
largest slot index whose year is non-zero (`none` models the source's
IndexError on an empty archive). -/
def findYearIndexNoTs (arch : Archive) : Option ℕ :=
  (slotList.filter (fun i => arch.yearAt i ≠ 0)).getLast?

/-- Year-slot selection from a timestamp (lines 804-810): iterate the
slots in `reversed` order (slot 14 first, slot 7 last) and return the
first whose stored year is ≥ the timestamp's year. -/
def findYearIndexTs (arch : Archive) (targetYear : ℕ) : Option ℕ :=
  slotList.reverse.find? (fun i => targetYear ≤ arch.yearAt i)

/-- Modelled from the spec, for comparison with `findYearIndexTs`: the
claim says the code "scans the year slots newest-to-oldest" and resumes
at the first year ≥ the timestamp's year, i.e. slot 7 first. -/
def findYearIndexNewestFirst (arch : Archive) (targetYear : ℕ) : Option ℕ :=
  slotList.find? (fun i => targetYear ≤ arch.yearAt i)

/-- The resume-point binary search of `genStartupRecords` (lines
823-857), fuel-indexed (the wrapper below always supplies sufficient
fuel, mirroring the source's `while True`).  `ts j` is the timestamp of
record `j`, `target` the query timestamp.  Besides the resulting
`sample`, the probed record index last fetched is returned (the source
overwrites `record_datetime` and `last_rain_value` at every probe,
lines 838-843); `lastProbe` accumulates it. -/
def binSearchGo (ts : ℕ → ℕ) (target : ℕ) :
    ℕ → ℕ → ℕ → Option ℕ → ℕ × Option ℕ
  | 0, _, upper, lastProbe => (upper, lastProbe)
  | fuel + 1, lower, upper, lastProbe =>
    if lower = upper then (upper, lastProbe)
    else
      let mid := (upper + lower) / 2
      if target = ts mid then (mid + 1, some mid)
      else if ts mid < target then
        (if lower = mid then (mid + 1, some mid)
         else binSearchGo ts target fuel (mid + 1) upper (some mid))
      else
        (if upper = mid then (mid, some mid)
         else binSearchGo ts target fuel lower mid (some mid))

/-- The search over a year holding `count` records: `lower = 0`,
`upper = count - 1` (line 821).  The fuel `count` suffices: the
search interval shrinks strictly at every probe. -/
def searchStartRecord (ts : ℕ → ℕ) (target count : ℕ) : ℕ × Option ℕ :=
  binSearchGo ts target count 0 (count - 1) none

/-- The state entering the pagination loop when resuming from a
timestamp `t` (lines 802-858): the selected year slot, the resolved
start record, and the `last_rain_value` / `last_record_date` /
`record_datetime` variables (the latter two seeded from the search's
last probe; `none` models the variables being still unbound when the
search never probes). -/
def resumeState (arch : Archive) (yearOf : ℕ → ℕ) (t : ℕ) :
    Option (ℕ × ℕ × Option ℚ × Option ℕ × Option ℕ) :=
  (findYearIndexTs arch (yearOf t)).map (fun yi =>
    let sr := searchStartRecord (fun j => (arch.recordAt yi j).recTime)
      t (arch.countAt yi)
    (yi, sr.1,
     sr.2.map (fun m => ((arch.recordAt yi m).dailyRainRaw : ℚ) / 10),
     some t,
     sr.2.map (fun m => (arch.recordAt yi m).recTime)))

/-- The log of one iteration of the outer `while True` loop of
`genStartupRecords` (one HISTORY_FILE fetch and archive traversal):
the `lastTimestamp` value it began with, the selected slot and start
record, the HISTORY_DATA requests issued, the packets yielded, and the
`lastTimestamp` value after the pass. -/
structure PassLog where
  inputTs : Option ℕ
  yearIndex : ℕ
  startRecord : ℕ
  reqs : List Req
  packets : List ArchPacket
  outputTs : Option ℕ
deriving DecidableEq

/-- The year-slot selection and start-record resolution of one outer
iteration (lines 792-858): with no timestamp, the earliest populated
slot, record 0, a zero rain baseline and no previous record date (lines
797-800); with a timestamp, `resumeState`. -/
def passEntry (arch : Archive) (yearOf : ℕ → ℕ) :
    Option ℕ → Option (ℕ × ℕ × Option ℚ × Option ℕ × Option ℕ)
  | none => (findYearIndexNoTs arch).map
      (fun yi => (yi, 0, some (0 : ℚ), none, none))
  | some t => resumeState arch yearOf t

/-- The outer `while True` loop of `genStartupRecords` (lines 778-947),
fuel-indexed, over a static archive.  Each iteration selects a year slot
(lines 792-815), resolves the start record (binary search when resuming
from a timestamp), stops via the line-867 break when that position is the
last record of the newest year, and otherwise pages through the archive
and repeats with `lastTimestamp` set to the last processed record's
timestamp (line 947).  An empty trace tail models the source returning
(no qualifying year) or raising (empty archive with no timestamp, or
line 947 reached with `record_datetime` unbound). -/
def genStartupGo (arch : Archive) (yearOf todOf : ℕ → ℕ) (innerFuel : ℕ) :
    ℕ → Option ℕ → List PassLog
  | 0, _ => []
  | fuel + 1, lastTs =>
    match passEntry arch yearOf lastTs with
    | none => []
    | some (yi, startRec, lastRain, lastDate, recDt) =>
      if yi = 7 ∧ (startRec : ℤ) = (arch.countAt 7 : ℤ) - 1 then
        [⟨lastTs, yi, startRec, [], [], lastTs⟩]
      else
        let res := innerLoop arch todOf innerFuel yi startRec
          lastRain lastDate recDt
        match res.2.2.2.2 with
        | none => [⟨lastTs, yi, startRec, res.1, res.2.1, none⟩]
        | some t2 =>
          ⟨lastTs, yi, startRec, res.1, res.2.1, some t2⟩ ::
            genStartupGo arch yearOf todOf innerFuel fuel (some t2)

/-! Concrete fixtures used to evaluate the model on explicit inputs. -/

/-- A `convertStd` stand-in that converts every tuple to itself (the
identity conversion, as when source and target units already agree). -/
def csId : ValueT → ℕ → Option ValueT := fun v _ => some v

/-- A concrete stand-in for the `math.pow(·, 1.5)` parameter. -/
def idQ : ℚ → ℚ := fun x => x

/-- An all-zero live reading to build explicit inputs from. -/
def live0 : LiveReading := ⟨0, 0, 0, 0, 0, 0, 0, 0, 0, 0, 0, 0, 0, 0, 0, 0, 0, 0⟩

/-- An archive record with the given datetime and daily-rain raw value,
all other fields zero. -/
def mkRec (t rain : ℕ) : ArchRecord :=
  ⟨t, 0, 0, 0, 0, 0, 0, 0, 0, 0, 0, 0, 0, 0, rain, 0, 0, 0, 0, 0⟩

/-- A one-year archive (slot 7, year 2017) with 250 records; record `j`
has datetime `100 * (j + 1)` and raw daily rain `10 * (j + 1)`. -/
def A3 : Archive :=
  ⟨fun i => if i = 7 then 2017 else 0,
   fun i => if i = 7 then 250 else 0,
   fun _ j => mkRec (100 * (j + 1)) (10 * (j + 1))⟩

/-- A one-year archive (slot 7, year 2017) with 3 records; record `j`
has datetime `100 * (j + 1)` and raw daily rain `10 * (j + 1)`. -/
def A8 : Archive :=
  ⟨fun i => if i = 7 then 2017 else 0,
   fun i => if i = 7 then 3 else 0,
   fun _ j => mkRec (100 * (j + 1)) (10 * (j + 1))⟩

/-- An archive whose newest slot 7 holds year 2017 and slot 8 holds year
2016 (the descending layout the device reports). -/
def A6 : Archive :=
  ⟨fun i => if i = 7 then 2017 else if i = 8 then 2016 else 0,
   fun _ => 5,
   fun _ j => mkRec (100 * (j + 1)) (10 * (j + 1))⟩

/-- Strictly increasing synthetic record timestamps 10, 20, 30, … -/
def tsInc : ℕ → ℕ := fun i => 10 * i + 10

/-- A live reading whose cumulative daily rain is `q`, all else zero. -/
def liveRain (q : ℚ) : LiveReading :=
  ⟨0, 0, 0, 0, 0, 0, 0, 0, 0, 0, 0, 0, q, 0, 0, 0, 0, 0⟩

/-- A live reading with the indoor-humidity sentinel 127, all else zero. -/
def liveHum127 : LiveReading :=
  ⟨0, 127, 0, 0, 0, 0, 0, 0, 0, 0, 0, 0, 0, 0, 0, 0, 0, 0⟩

/-- A live reading with raw pressure `p` and raw barometer `b`. -/
def livePress (p b : ℚ) : LiveReading :=
  ⟨0, 0, 0, 0, p, b, 0, 0, 0, 0, 0, 0, 0, 0, 0, 0, 0, 0⟩

/-- A live reading whose raw indoor temperature is 4000 — inside the
claimed sentinel range ≥ 3276 but different from 32767 — all else
zero. -/
def liveTemp4000 : LiveReading :=
  ⟨0, 0, 0, 4000, 0, 0, 0, 0, 0, 0, 0, 0, 0, 0, 0, 0, 0, 0⟩

/-- A live reading with raw wind gust `g`, all else zero. -/
def liveGust (g : ℚ) : LiveReading :=
  ⟨0, 0, 0, 0, 0, 0, 0, 0, 0, 0, g, 0, 0, 0, 0, 0, 0, 0⟩

/-- A live reading holding every sentinel the claim enumerates (plus an
in-range indoor humidity sentinel and sentinel-range indoor
temperature). -/
def liveSentinels : LiveReading :=
  ⟨32767, 127, 127, 32767, 4000, 4000, 4000, 4000, 4000, 4000, 4000, 0,
   214748367, 0, 0, 0, 2147481, 0⟩

/-! ## C7 — `convert_units` never propagates a conversion failure -/

/-- C7: for every source value and target unit system, `convert_units`
returns the underlying conversion's result when it succeeds and falls
back to the raw source tuple unchanged when the underlying conversion
fails (raises), never propagating the failure. -/
theorem C7_convert_units_safe (convertStd : ValueT → ℕ → Option ValueT)
    (source : ValueT) (target : ℕ) :
    (convertStd source target = none →
      convert_units convertStd source target = source) ∧
    (∀ result, convertStd source target = some result →
      convert_units convertStd source target = result) := by
  constructor
  · intro h
    simp [convert_units, h]
  · intro result h
    simp [convert_units, h]

/-- Witness for C7 at a concrete failing conversion. -/
theorem C7_convert_units_safe_witness :
    convert_units (fun _ _ => none) ((3 : ℚ), "hPa", "group_pressure") METRICWX
      = ((3 : ℚ), "hPa", "group_pressure") :=
  (C7_convert_units_safe (fun _ _ => none)
    ((3 : ℚ), "hPa", "group_pressure") METRICWX).1 rfl

/-! ## C4 — incremental rain of the live path -/

/-- C4: for consecutive live readings, the yielded incremental rain is
absent when no baseline exists; otherwise, for a non-sentinel cumulative
reading, it is new − prior (×25.4 when the rain unit is inches) when the
new reading is ≥ the prior one and the current time of day is later than
the baseline's (same day), and 0.0 otherwise; and the baseline value and
timestamp are updated to the new reading unconditionally. -/
theorem C4_rain_delta (convertStd : ValueT → ℕ → Option ValueT)
    (pow15 : ℚ → ℚ) (todOf : ℕ → ℕ)
    (tU pU wU rU sU : ℕ) (r : LiveReading) (t : ℕ) (st : LoopState) :
    (st.lastRainValue = none →
      (genLoopStep convertStd pow15 todOf tU pU wU rU sU r t st).1.rain = none) ∧
    (∀ lv lt, st.lastRainValue = some lv → st.lastRainTime = some lt →
      r.dailyRainRaw < 214748367 →
      (genLoopStep convertStd pow15 todOf tU pU wU rU sU r t st).1.rain =
        (if todOf t > todOf lt ∧ r.dailyRainRaw ≥ lv then
          (if rU = 0 then some (r.dailyRainRaw - lv)
           else some ((r.dailyRainRaw - lv) * 25.4))
         else some 0)) ∧
    (genLoopStep convertStd pow15 todOf tU pU wU rU sU r t st).2.lastRainValue
      = some r.dailyRainRaw ∧
    (genLoopStep convertStd pow15 todOf tU pU wU rU sU r t st).2.lastRainTime
      = some t := by
  refine ⟨?_, ?_, rfl, rfl⟩
  · intro h
    simp only [genLoopStep, h]
  · intro lv lt h1 h2 h3
    simp only [genLoopStep, h1, h2]
    rw [if_neg (not_le.mpr h3)]

/-- Witness for C4: the spec's rain scenario.  Baseline 10.0 mm at
time-of-day 800, reading 12.5 mm at time-of-day 805 (same day) gives
incremental rain 2.5 mm; a reading of 1.0 mm at time-of-day 5 (past
midnight) gives 0.0 and the baseline becomes 1.0. -/
theorem C4_rain_delta_witness :
    (genLoopStep csId idQ id 0 0 0 0 0 (liveRain 12.5)
      805 ⟨some 10, some 800⟩).1.rain = some 2.5 ∧
    (genLoopStep csId idQ id 0 0 0 0 0 (liveRain 1)
      5 ⟨some 12.5, some 805⟩).1.rain = some 0 ∧
    (genLoopStep csId idQ id 0 0 0 0 0 (liveRain 1)
      5 ⟨some 12.5, some 805⟩).2.lastRainValue = some 1 := by
  have h1 := (C4_rain_delta csId idQ id 0 0 0 0 0
    (liveRain 12.5) 805 ⟨some 10, some 800⟩).2.1
    10 800 rfl rfl (by norm_num [liveRain])
  have h2 := (C4_rain_delta csId idQ id 0 0 0 0 0
    (liveRain 1) 5 ⟨some 12.5, some 805⟩).2.1
    12.5 805 rfl rfl (by norm_num [liveRain])
  have h3 := (C4_rain_delta csId idQ id 0 0 0 0 0
    (liveRain 1) 5 ⟨some 12.5, some 805⟩).2.2.1
  norm_num [liveRain, id_eq] at h1 h2 h3 ⊢
  exact ⟨h1, h2, h3⟩

/-! ## C9 — a sentinel rain reading poisons the baseline -/

/-- C9: the live path stores the raw cumulative-rain value into the
baseline even when it is the sentinel (≥ 214748367); the next valid
reading therefore computes incremental rain 0.0 (its cumulative value is
below the sentinel baseline, which looks like a rollover), never the
true delta. -/
theorem C9_sentinel_baseline (convertStd : ValueT → ℕ → Option ValueT)
    (pow15 : ℚ → ℚ) (todOf : ℕ → ℕ) (tU pU wU rU sU : ℕ)
    (r1 r2 : LiveReading) (t1 t2 : ℕ) (st : LoopState)
    (h1 : r1.dailyRainRaw ≥ 214748367) (h2 : r2.dailyRainRaw < 214748367) :
    (genLoopStep convertStd pow15 todOf tU pU wU rU sU r1 t1 st).2.lastRainValue
      = some r1.dailyRainRaw ∧
    (genLoopStep convertStd pow15 todOf tU pU wU rU sU r2 t2
      (genLoopStep convertStd pow15 todOf tU pU wU rU sU r1 t1 st).2).1.rain
      = some 0 := by
  refine ⟨rfl, ?_⟩
  have hlt : r2.dailyRainRaw < r1.dailyRainRaw := lt_of_lt_of_le h2 h1
  simp only [genLoopStep]
  rw [if_neg (not_le.mpr h2), if_neg]
  intro hc
  exact absurd hc.2 (not_le.mpr hlt)

/-- Witness for C9: sentinel reading followed by a valid 7 mm reading. -/
theorem C9_sentinel_baseline_witness :
    (genLoopStep csId idQ id 0 0 0 0 0 (liveRain 214748367)
      10 ⟨some 3, some 5⟩).2.lastRainValue = some 214748367 ∧
    (genLoopStep csId idQ id 0 0 0 0 0 (liveRain 7) 20
      (genLoopStep csId idQ id 0 0 0 0 0 (liveRain 214748367)
        10 ⟨some 3, some 5⟩).2).1.rain = some 0 :=
  C9_sentinel_baseline csId idQ id 0 0 0 0 0
    (liveRain 214748367) (liveRain 7)
    10 20 ⟨some 3, some 5⟩ (by norm_num [liveRain]) (by norm_num [liveRain])

/-! ## C5 — the barometer sentinel branch clobbers `pressure` -/

/-- C5 (code bug demonstration): with a valid raw pressure of 1000 hPa
and a sentinel raw barometer of 5000, the source's lines 646-647 set
`_packet['pressure']` to `None` (and leave `'barometer'` unset), so the
yielded pressure is absent even though the raw pressure field alone
would have produced 1000; the third conjunct shows the same reading with
a valid barometer keeps `pressure = 1000`. -/
theorem C5_barometer_clobbers_pressure :
    (genLoopStep csId idQ id 0 0 0 0 0 (livePress 1000 5000) 0
      ⟨none, none⟩).1.pressure = none ∧
    (genLoopStep csId idQ id 0 0 0 0 0 (livePress 1000 5000) 0
      ⟨none, none⟩).1.barometer = none ∧
    (genLoopStep csId idQ id 0 0 0 0 0 (livePress 1000 1013) 0
      ⟨none, none⟩).1.pressure = some 1000 := by
  refine ⟨?_, ?_, ?_⟩ <;> norm_num [genLoopStep, convert_units, csId, livePress]

/-! ## C2 — sentinel handling of the live packet fields -/

/-- C2 counterexample: an indoor-humidity sentinel reading of 127 is
passed through as the numeric value 127 (line 605 applies no sentinel
test to `inHumidity`), contradicting the claim that every sentinel-valued
raw field is mapped to absent. -/
theorem C2_counterexample :
    (genLoopStep csId idQ id 0 0 0 0 0 liveHum127 0
      ⟨none, none⟩).1.inHumidity = some 127 ∧
    (some (127 : ℤ) : Option ℤ) ≠ none := by
  exact ⟨rfl, by decide⟩

/-- C2 amended: the per-field sentinel rules the code actually
implements.  Wind direction 32767, outdoor humidity 127, outdoor
temperature / dew point / wind chill ≥ 3276, pressure ≥ 3276, barometer
≥ 3276, wind speed and gust ≥ 3276 (tested after the Beaufort / ft-s
rescaling), cumulative rain ≥ 214748367 and solar radiation > 2147480
all map to absent; but indoor humidity is passed through with no
sentinel test, and indoor temperature is only tested for exact equality
with 32767 (not ≥ 3276). -/
theorem C2_amended (convertStd : ValueT → ℕ → Option ValueT)
    (pow15 : ℚ → ℚ) (todOf : ℕ → ℕ) (tU pU wU rU sU : ℕ)
    (r : LiveReading) (t : ℕ) (st : LoopState) :
    ((genLoopStep convertStd pow15 todOf tU pU wU rU sU r t st).1.windDir
        = if r.windDirRaw = 32767 then none else some r.windDirRaw) ∧
    ((genLoopStep convertStd pow15 todOf tU pU wU rU sU r t st).1.inHumidity
        = some r.inHumidityRaw) ∧
    ((genLoopStep convertStd pow15 todOf tU pU wU rU sU r t st).1.outHumidity
        = if r.outHumidityRaw = 127 then none else some r.outHumidityRaw) ∧
    (r.inTempRaw = 32767 →
      (genLoopStep convertStd pow15 todOf tU pU wU rU sU r t st).1.inTemp = none) ∧
    (r.inTempRaw ≠ 32767 →
      (genLoopStep convertStd pow15 todOf tU pU wU rU sU r t st).1.inTemp =
        some ((convert_units convertStd (r.inTempRaw,
          if tU = 0 then "degree_C" else "degree_F", "group_temperature")
          METRICWX).1)) ∧
    (r.outTempRaw ≥ 3276 →
      (genLoopStep convertStd pow15 todOf tU pU wU rU sU r t st).1.outTemp = none) ∧
    (r.dewPointRaw ≥ 3276 →
      (genLoopStep convertStd pow15 todOf tU pU wU rU sU r t st).1.dewPoint = none) ∧
    (r.windChillRaw ≥ 3276 →
      (genLoopStep convertStd pow15 todOf tU pU wU rU sU r t st).1.windChill = none) ∧
    (r.pressureRaw ≥ 3276 →
      (genLoopStep convertStd pow15 todOf tU pU wU rU sU r t st).1.pressure = none) ∧
    (r.barometerRaw ≥ 3276 →
      (genLoopStep convertStd pow15 todOf tU pU wU rU sU r t st).1.barometer = none) ∧
    (wU ≤ 3 → r.windSpeedRaw ≥ 3276 →
      (genLoopStep convertStd pow15 todOf tU pU wU rU sU r t st).1.windSpeed = none) ∧
    (wU ≤ 3 → r.windGustRaw ≥ 3276 →
      (genLoopStep convertStd pow15 todOf tU pU wU rU sU r t st).1.windGust = none) ∧
    (wU = 4 → 0.836 * pow15 r.windSpeedRaw ≥ 3276 →
      (genLoopStep convertStd pow15 todOf tU pU wU rU sU r t st).1.windSpeed = none) ∧
    (wU = 4 → 0.836 * pow15 r.windGustRaw ≥ 3276 →
      (genLoopStep convertStd pow15 todOf tU pU wU rU sU r t st).1.windGust = none) ∧
    (5 ≤ wU → r.windSpeedRaw * 0.3048 ≥ 3276 →
      (genLoopStep convertStd pow15 todOf tU pU wU rU sU r t st).1.windSpeed = none) ∧
    (5 ≤ wU → r.windGustRaw * 0.3048 ≥ 3276 →
      (genLoopStep convertStd pow15 todOf tU pU wU rU sU r t st).1.windGust = none) ∧
    (r.dailyRainRaw ≥ 214748367 →
      (genLoopStep convertStd pow15 todOf tU pU wU rU sU r t st).1.rain = none) ∧
    (r.radiationRaw > 2147480 →
      (genLoopStep convertStd pow15 todOf tU pU wU rU sU r t st).1.radiation = none) := by
  refine ⟨rfl, rfl, rfl, ?_, ?_, ?_, ?_, ?_, ?_, ?_, ?_, ?_, ?_, ?_, ?_, ?_,
    ?_, ?_⟩
  · intro h
    simp only [genLoopStep]
    rw [if_pos h]
  · intro h
    simp only [genLoopStep]
    rw [if_neg h]
  · intro h
    simp only [genLoopStep]
    rw [if_pos h]
  · intro h
    simp only [genLoopStep]
    rw [if_pos h]
  · intro h
    simp only [genLoopStep]
    rw [if_pos h]
  · intro h
    simp only [genLoopStep]
    by_cases hb : r.barometerRaw ≥ 3276
    · rw [if_pos hb]
    · rw [if_neg hb, if_pos h]
  · intro h
    simp only [genLoopStep]
    rw [if_pos h]
  · intro hw h
    simp only [genLoopStep]
    interval_cases wU <;> simp_all
  · intro hw h
    simp only [genLoopStep]
    interval_cases wU <;> simp_all
  · intro hw h
    subst hw
    have h0 : (4 : ℕ) ≠ 0 := by decide
    have h1 : (4 : ℕ) ≠ 1 := by decide
    have h2 : (4 : ℕ) ≠ 2 := by decide
    have h3 : (4 : ℕ) ≠ 3 := by decide
    simp only [genLoopStep, if_neg h0, if_neg h1, if_neg h2, if_neg h3,
      if_pos (rfl : (4 : ℕ) = 4), if_true]
    rw [if_pos h]
  · intro hw h
    subst hw
    have h0 : (4 : ℕ) ≠ 0 := by decide
    have h1 : (4 : ℕ) ≠ 1 := by decide
    have h2 : (4 : ℕ) ≠ 2 := by decide
    have h3 : (4 : ℕ) ≠ 3 := by decide
    simp only [genLoopStep, if_neg h0, if_neg h1, if_neg h2, if_neg h3,
      if_pos (rfl : (4 : ℕ) = 4), if_true]
    rw [if_pos h]
  · intro hw h
    have h0 : wU ≠ 0 := by omega
    have h1 : wU ≠ 1 := by omega
    have h2 : wU ≠ 2 := by omega
    have h3 : wU ≠ 3 := by omega
    have h4 : wU ≠ 4 := by omega
    simp only [genLoopStep, if_neg h0, if_neg h1, if_neg h2, if_neg h3,
      if_neg h4]
    rw [if_pos h]
  · intro hw h
    have h0 : wU ≠ 0 := by omega
    have h1 : wU ≠ 1 := by omega
    have h2 : wU ≠ 2 := by omega
    have h3 : wU ≠ 3 := by omega
    have h4 : wU ≠ 4 := by omega
    simp only [genLoopStep, if_neg h0, if_neg h1, if_neg h2, if_neg h3,
      if_neg h4]
    rw [if_pos h]
  · intro h
    simp only [genLoopStep]
    rcases st with ⟨lv, lt2⟩
    cases lv <;> cases lt2 <;> simp [h]
  · intro h
    simp only [genLoopStep]
    rw [if_pos h]

/-- Witness for C2 amended: sentinel fields map to absent at a reading
holding every sentinel; an indoor temperature of 4000 (≥ 3276 but ≠
32767) leaks through as the numeric value 4000; and a wind gust is
sentinel-tested after the ft/s rescaling (raw 20000 × 0.3048 ≥ 3276). -/
theorem C2_amended_witness :
    (genLoopStep csId idQ id 0 0 0 0 0 liveSentinels 0
      ⟨some 1, some 1⟩).1.windDir = none ∧
    (genLoopStep csId idQ id 0 0 0 0 0 liveSentinels 0
      ⟨some 1, some 1⟩).1.outTemp = none ∧
    (genLoopStep csId idQ id 0 0 0 0 0 liveSentinels 0
      ⟨some 1, some 1⟩).1.windSpeed = none ∧
    (genLoopStep csId idQ id 0 0 0 0 0 liveSentinels 0
      ⟨some 1, some 1⟩).1.rain = none ∧
    (genLoopStep csId idQ id 0 0 0 0 0 liveSentinels 0
      ⟨some 1, some 1⟩).1.radiation = none ∧
    (genLoopStep csId idQ id 0 0 0 0 0 liveTemp4000 0
      ⟨none, none⟩).1.inTemp = some 4000 ∧
    (genLoopStep csId idQ id 0 0 5 0 0 (liveGust 20000) 0
      ⟨none, none⟩).1.windGust = none := by
  obtain ⟨hA1, hA2, hA3, hA4, hA5, hA6, hA7, hA8, hA9, hA10, hA11, hA12,
    hA13, hA14, hA15, hA16, hA17, hA18⟩ :=
    C2_amended csId idQ id 0 0 0 0 0 liveSentinels 0 ⟨some 1, some 1⟩
  obtain ⟨_, _, _, _, hB5, _, _, _, _, _, _, _, _, _, _, _, _, _⟩ :=
    C2_amended csId idQ id 0 0 0 0 0 liveTemp4000 0 ⟨none, none⟩
  obtain ⟨_, _, _, _, _, _, _, _, _, _, _, _, _, _, _, hC16, _, _⟩ :=
    C2_amended csId idQ id 0 0 5 0 0 (liveGust 20000) 0 ⟨none, none⟩
  refine ⟨?_, hA6 (by norm_num [liveSentinels]), ?_, ?_, ?_, ?_, ?_⟩
  · rw [hA1]
    norm_num [liveSentinels]
  · exact hA11 (by norm_num) (by norm_num [liveSentinels])
  · exact hA17 (by norm_num [liveSentinels])
  · exact hA18 (by norm_num [liveSentinels])
  · have hleak := hB5 (by norm_num [liveTemp4000])
    rw [hleak]
    norm_num [liveTemp4000, convert_units, csId]
  · exact hC16 (by norm_num) (by norm_num [liveGust])

/-! ## C1 — the resume-point binary search -/

/-- Loop invariant of the binary search: on an interval `[lower, upper]`
with every index below `lower` having timestamp ≤ target and the upper
boundary having timestamp ≥ target (or being the last record `N - 1`),
the search result stays strictly below `N`, every index below the result
has timestamp ≤ target, and the result's timestamp is ≥ target unless
the result is `N - 1`. -/
theorem binSearchGo_inv (ts : ℕ → ℕ) (target N : ℕ)
    (hmono : ∀ i j, i < j → j < N → ts i < ts j) :
    ∀ fuel lower upper lastProbe, upper - lower < fuel → lower ≤ upper →
      upper < N →
      (∀ i, i < lower → ts i ≤ target) →
      (target ≤ ts upper ∨ upper = N - 1) →
      (binSearchGo ts target fuel lower upper lastProbe).1 < N ∧
      (∀ i, i < (binSearchGo ts target fuel lower upper lastProbe).1 →
        ts i ≤ target) ∧
      (target ≤ ts (binSearchGo ts target fuel lower upper lastProbe).1 ∨
        (binSearchGo ts target fuel lower upper lastProbe).1 = N - 1) := by
  intro fuel
  induction fuel with
  | zero =>
    intro l u lp hf
    exact absurd hf (by omega)
  | succ fuel ih =>
    intro l u lp hf hlu huN hlow hup
    by_cases heq : l = u
    · subst heq
      simp only [binSearchGo, if_pos rfl]
      exact ⟨huN, hlow, hup⟩
    · have hlt : l < u := lt_of_le_of_ne hlu heq
      simp only [binSearchGo, if_neg heq]
      set mid := (u + l) / 2 with hmiddef
      have hmid1 : l ≤ mid := by omega
      have hmid2 : mid < u := by omega
      by_cases he : target = ts mid
      · rw [if_pos he]
        refine ⟨by omega, ?_, Or.inl ?_⟩
        · intro i hi
          rcases lt_or_ge i l with h1 | h1
          · exact hlow i h1
          · rcases lt_or_ge i mid with h2 | h2
            · exact le_of_lt (he ▸ hmono i mid h2 (by omega))
            · have : i = mid := by omega
              exact le_of_eq (this ▸ he.symm)
        · exact le_of_lt (he ▸ hmono mid (mid + 1) (by omega) (by omega))
      · rw [if_neg he]
        by_cases hcmp : ts mid < target
        · rw [if_pos hcmp]
          by_cases hlm : l = mid
          · rw [if_pos hlm]
            have hu : u = mid + 1 := by omega
            refine ⟨by omega, ?_, ?_⟩
            · intro i hi
              rcases lt_or_ge i l with h1 | h1
              · exact hlow i h1
              · have : i = mid := by omega
                exact le_of_lt (this ▸ hcmp)
            · rw [← hu]
              exact hup
          · rw [if_neg hlm]
            refine ih (mid + 1) u (some mid) (by omega) (by omega) huN ?_ hup
            intro i hi
            rcases lt_or_ge i l with h1 | h1
            · exact hlow i h1
            · rcases lt_or_ge i mid with h2 | h2
              · exact le_of_lt (lt_trans (hmono i mid h2 (by omega)) hcmp)
              · have : i = mid := by omega
                exact le_of_lt (this ▸ hcmp)
        · rw [if_neg hcmp, if_neg (by omega : ¬ u = mid)]
          refine ih l mid (some mid) (by omega) (by omega) (by omega) hlow
            (Or.inl (le_of_not_lt hcmp))

/-- C1 counterexample: over a synthetic year with two strictly
increasing record timestamps 10 < 20 and query timestamp 100 (later than
every record), the search returns index 1 = N − 1, not N = 2 as the
claim states. -/
theorem C1_counterexample :
    (∀ i j, i < j → j < 2 → tsInc i < tsInc j) ∧
    (∀ i, i < 2 → tsInc i < 100) ∧
    (searchStartRecord tsInc 100 2).1 = 1 ∧ (1 : ℕ) ≠ 2 := by
  refine ⟨?_, ?_, rfl, by decide⟩
  · intro i j hij hj
    simp only [tsInc]
    omega
  · intro i hi
    simp only [tsInc]
    omega

/-- C1 amended: over a year with `N ≥ 1` strictly increasing record
timestamps, the search returns an index in `[0, N − 1]` — never `N`:
every index below the result has timestamp ≤ the target (strictly below
when no record matches the target exactly, so the result is then the
smallest index with timestamp ≥ target), and the result's own timestamp
is ≥ the target unless the result is `N − 1` (the clip applied when the
target exceeds every record, and where an exact match probed at
`mid = N − 2` can land via `mid + 1`). -/
theorem C1_amended (ts : ℕ → ℕ) (N target : ℕ) (hN : 1 ≤ N)
    (hmono : ∀ i j, i < j → j < N → ts i < ts j) :
    (searchStartRecord ts target N).1 ≤ N - 1 ∧
    (∀ i, i < (searchStartRecord ts target N).1 → ts i ≤ target) ∧
    (target ≤ ts (searchStartRecord ts target N).1 ∨
      (searchStartRecord ts target N).1 = N - 1) ∧
    ((∀ i, i < N → ts i ≠ target) →
      ∀ i, i < (searchStartRecord ts target N).1 → ts i < target) := by
  have h := binSearchGo_inv ts target N hmono N 0 (N - 1) none
    (by omega) (by omega) (by omega)
    (fun i hi => absurd hi (Nat.not_lt_zero i)) (Or.inr rfl)
  simp only [searchStartRecord]
  refine ⟨by omega, h.2.1, h.2.2, ?_⟩
  intro hne i hi
  exact lt_of_le_of_ne (h.2.1 i hi) (hne i (lt_trans hi h.1))

/-- Witness for C1 amended over records 10 < 20 < 30 and target 25. -/
theorem C1_amended_witness :
    (searchStartRecord tsInc 25 3).1 ≤ 3 - 1 ∧
    (25 ≤ tsInc (searchStartRecord tsInc 25 3).1 ∨
      (searchStartRecord tsInc 25 3).1 = 3 - 1) :=
  ⟨(C1_amended tsInc 3 25 (by omega)
      (by intro i j hij hj; simp only [tsInc]; omega)).1,
   (C1_amended tsInc 3 25 (by omega)
      (by intro i j hij hj; simp only [tsInc]; omega)).2.2.1⟩

/-! ## C3 — archive pagination batches -/

/-- C3 counterexample: in a 250-record year, pagination from start index
180 issues a single batch of 69 records (indices 180–248), not batches
of 100, 100 and 49 as the claim states. -/
theorem C3_counterexample :
    (innerLoop A3 id 10 7 180 (some 0) none none).1.map Req.recCount = [69] ∧
    ([69] : List ℕ) ≠ [100, 100, 49] := by
  exact ⟨by decide, by decide⟩

/-- C3 amended: every HISTORY_DATA request `(start, count)` the
pagination loop issues satisfies `start + count ≤ yearCount − 1`, so the
last record index of a year is never requested at all; batches of
100, 100, 49 arise from start index 0 of a 250-record year, while start
index 180 gives the single batch of 69. -/
theorem C3_amended :
    (∀ (arch : Archive) (todOf : ℕ → ℕ) (fuel yi start : ℕ)
      (lr : Option ℚ) (ld rd : Option ℕ) (q : Req),
      q ∈ (innerLoop arch todOf fuel yi start lr ld rd).1 →
      (q.startRec : ℤ) + (q.recCount : ℤ) ≤ (arch.countAt q.yearIdx : ℤ) - 1) ∧
    (innerLoop A3 id 10 7 0 (some 0) none none).1 =
      [⟨7, 2017, 100, 0⟩, ⟨7, 2017, 100, 100⟩, ⟨7, 2017, 49, 200⟩] ∧
    (innerLoop A3 id 10 7 180 (some 0) none none).1 = [⟨7, 2017, 69, 180⟩] := by
  refine ⟨?_, by decide, by decide⟩
  intro arch todOf fuel
  induction fuel with
  | zero =>
    intro yi start lr ld rd q hq
    simp [innerLoop] at hq
  | succ fuel ih =>
    intro yi start lr ld rd q hq
    simp only [innerLoop] at hq
    by_cases h7 : yi < 7
    · rw [if_pos h7] at hq
      simp at hq
    · rw [if_neg h7] at hq
      by_cases hclip : (arch.countAt yi : ℤ) ≤ 100 + (start : ℤ)
      · rw [if_pos hclip] at hq
        by_cases hpos : (0 : ℤ) < (arch.countAt yi : ℤ) - (start : ℤ) - 1
        · rw [if_pos hpos] at hq
          by_cases hend : (arch.countAt yi : ℤ) - 1 ≤
              ((start + ((arch.countAt yi : ℤ) - (start : ℤ) - 1).toNat : ℕ) : ℤ)
          · rw [if_pos hend] at hq
            rcases List.mem_cons.mp hq with h | h
            · subst h
              simp only
              omega
            · exact ih (yi - 1) 0 _ _ _ q h
          · rw [if_neg hend] at hq
            rcases List.mem_cons.mp hq with h | h
            · subst h
              simp only
              omega
            · exact ih yi _ _ _ _ q h
        · rw [if_neg hpos] at hq
          by_cases hend : (arch.countAt yi : ℤ) - 1 ≤ (start : ℤ)
          · rw [if_pos hend] at hq
            exact ih (yi - 1) 0 lr ld rd q hq
          · rw [if_neg hend] at hq
            exact ih yi start lr ld rd q hq
      · rw [if_neg hclip] at hq
        by_cases hpos : (0 : ℤ) < (100 : ℤ)
        · rw [if_pos hpos] at hq
          by_cases hend : (arch.countAt yi : ℤ) - 1 ≤
              ((start + (100 : ℤ).toNat : ℕ) : ℤ)
          · rw [if_pos hend] at hq
            rcases List.mem_cons.mp hq with h | h
            · subst h
              simp only
              omega
            · exact ih (yi - 1) 0 _ _ _ q h
          · rw [if_neg hend] at hq
            rcases List.mem_cons.mp hq with h | h
            · subst h
              simp only
              omega
            · exact ih yi _ _ _ _ q h
        · exact absurd (by omega) hpos

/-- Witness for C3 amended: the single request of the 180-start run
stops one short of the year's last index, 180 + 69 ≤ 250 − 1. -/
theorem C3_amended_witness :
    ((180 : ℕ) : ℤ) + ((69 : ℕ) : ℤ) ≤ ((A3.countAt 7 : ℕ) : ℤ) - 1 :=
  C3_amended.1 A3 id 10 7 180 (some 0) none none ⟨7, 2017, 69, 180⟩ (by decide)

/-! ## C6 — year-slot selection -/

/-- Helper: over a strictly ascending list, the last element of the
filtered sublist satisfies the predicate, belongs to the list, and no
later (larger) element of the list satisfies the predicate. -/
theorem getLast_filter_sorted (p : ℕ → Bool) :
    ∀ (l : List ℕ), l.Pairwise (· < ·) → ∀ a, (l.filter p).getLast? = some a →
      a ∈ l ∧ p a = true ∧ ∀ b ∈ l, a < b → ¬ p b = true := by
  intro l
  induction l with
  | nil =>
    intro _ a h
    simp at h
  | cons x xs ih =>
    intro hpw a h
    have hx : ∀ b ∈ xs, x < b := fun b hb => (List.pairwise_cons.mp hpw).1 b hb
    have hxs := hpw.of_cons
    by_cases hp : p x = true
    · rw [List.filter_cons_of_pos hp] at h
      cases hfe : xs.filter p with
      | nil =>
        rw [hfe] at h
        have ha : a = x := by
          simp only [List.getLast?] at h
          injection h with h
          exact h.symm
        subst ha
        refine ⟨List.mem_cons_self _ _, hp, ?_⟩
        intro b hb hab
        rcases List.mem_cons.mp hb with rfl | hb
        · omega
        · exact List.filter_eq_nil_iff.mp hfe b hb
      | cons y ys =>
        rw [hfe, List.getLast?_cons_cons, ← hfe] at h
        obtain ⟨ha1, ha2, ha3⟩ := ih hxs a h
        refine ⟨List.mem_cons_of_mem x ha1, ha2, ?_⟩
        intro b hb hab
        rcases List.mem_cons.mp hb with rfl | hb
        · exact absurd (hx a ha1) (by omega)
        · exact ha3 b hb hab
    · rw [List.filter_cons_of_neg hp] at h
      obtain ⟨ha1, ha2, ha3⟩ := ih hxs a h
      refine ⟨List.mem_cons_of_mem x ha1, ha2, ?_⟩
      intro b hb hab
      rcases List.mem_cons.mp hb with rfl | hb
      · exact hp
      · exact ha3 b hb hab

/-- C6 counterexample: with year slots (2017, 2016, 0, …) and a resume
timestamp in 2016, the source's reversed scan selects slot 8 (year
2016), whereas the claimed newest-to-oldest scan taking the first year ≥
the target would select slot 7 (year 2017). -/
theorem C6_counterexample :
    findYearIndexTs A6 2016 = some 8 ∧
    findYearIndexNewestFirst A6 2016 = some 7 ∧
    (8 : ℕ) ≠ 7 :=
  ⟨by decide, by decide, by decide⟩

/-- C6 amended: with no timestamp, the selected slot is the largest
populated slot index — the earliest stored year — and the pass starts at
record 0; with a timestamp, the slots are scanned oldest-to-newest
(slot 14 down to slot 7) so the selected slot is the largest index — the
oldest year — whose year is ≥ the timestamp's year; and when no slot
qualifies the invocation terminates without yielding anything. -/
theorem C6_amended (arch : Archive) (yearOf todOf : ℕ → ℕ)
    (ty t innerFuel fuel : ℕ) :
    (∀ i, findYearIndexNoTs arch = some i →
      7 ≤ i ∧ i ≤ 14 ∧ arch.yearAt i ≠ 0 ∧
      ∀ j, i < j → j ≤ 14 → arch.yearAt j = 0) ∧
    (∀ i, findYearIndexTs arch ty = some i →
      7 ≤ i ∧ i ≤ 14 ∧ ty ≤ arch.yearAt i ∧
      ∀ j, i < j → j ≤ 14 → arch.yearAt j < ty) ∧
    (findYearIndexTs arch (yearOf t) = none →
      genStartupGo arch yearOf todOf innerFuel (fuel + 1) (some t) = []) ∧
    (∀ i, findYearIndexNoTs arch = some i →
      ∀ l, (genStartupGo arch yearOf todOf innerFuel (fuel + 1) none).head?
        = some l → l.startRecord = 0) := by
  refine ⟨?_, ?_, ?_, ?_⟩
  · intro i h
    have hpw : slotList.Pairwise (· < ·) := by decide
    obtain ⟨h1, h2, h3⟩ := getLast_filter_sorted _ slotList hpw i h
    have hb : 7 ≤ i ∧ i ≤ 14 := by
      fin_cases h1 <;> omega
    refine ⟨hb.1, hb.2, by simpa using h2, ?_⟩
    intro j hj1 hj2
    have h7j : 7 ≤ j := by omega
    have hjmem : j ∈ slotList := by
      interval_cases j <;> decide
    have := h3 j hjmem hj1
    simpa using this
  · intro i h
    simp only [findYearIndexTs] at h
    have hrev : slotList.reverse = [14, 13, 12, 11, 10, 9, 8, 7] := by decide
    rw [hrev] at h
    have hpos : ∀ (a : ℕ) (l : List ℕ), ty ≤ arch.yearAt a →
        List.find? (fun i => decide (ty ≤ arch.yearAt i)) (a :: l) = some a :=
      fun a l ha => List.find?_cons_of_pos l (decide_eq_true ha)
    have hneg : ∀ (a : ℕ) (l : List ℕ), ¬ ty ≤ arch.yearAt a →
        List.find? (fun i => decide (ty ≤ arch.yearAt i)) (a :: l) =
          List.find? (fun i => decide (ty ≤ arch.yearAt i)) l :=
      fun a l ha => List.find?_cons_of_neg l (by simpa using ha)
    by_cases h14 : ty ≤ arch.yearAt 14
    · rw [hpos 14 _ h14] at h
      injection h with h
      subst h
      exact ⟨by omega, by omega, h14, by omega⟩
    · rw [hneg 14 _ h14] at h
      by_cases h13 : ty ≤ arch.yearAt 13
      · rw [hpos 13 _ h13] at h
        injection h with h
        subst h
        refine ⟨by omega, by omega, h13, ?_⟩
        intro j hj1 hj2
        interval_cases j
        omega
      · rw [hneg 13 _ h13] at h
        by_cases h12 : ty ≤ arch.yearAt 12
        · rw [hpos 12 _ h12] at h
          injection h with h
          subst h
          refine ⟨by omega, by omega, h12, ?_⟩
          intro j hj1 hj2
          interval_cases j <;> omega
        · rw [hneg 12 _ h12] at h
          by_cases h11 : ty ≤ arch.yearAt 11
          · rw [hpos 11 _ h11] at h
            injection h with h
            subst h
            refine ⟨by omega, by omega, h11, ?_⟩
            intro j hj1 hj2
            interval_cases j <;> omega
          · rw [hneg 11 _ h11] at h
            by_cases h10 : ty ≤ arch.yearAt 10
            · rw [hpos 10 _ h10] at h
              injection h with h
              subst h
              refine ⟨by omega, by omega, h10, ?_⟩
              intro j hj1 hj2
              interval_cases j <;> omega
            · rw [hneg 10 _ h10] at h
              by_cases h9 : ty ≤ arch.yearAt 9
              · rw [hpos 9 _ h9] at h
                injection h with h
                subst h
                refine ⟨by omega, by omega, h9, ?_⟩
                intro j hj1 hj2
                interval_cases j <;> omega
              · rw [hneg 9 _ h9] at h
                by_cases h8 : ty ≤ arch.yearAt 8
                · rw [hpos 8 _ h8] at h
                  injection h with h
                  subst h
                  refine ⟨by omega, by omega, h8, ?_⟩
                  intro j hj1 hj2
                  interval_cases j <;> omega
                · rw [hneg 8 _ h8] at h
                  by_cases h7 : ty ≤ arch.yearAt 7
                  · rw [hpos 7 _ h7] at h
                    injection h with h
                    subst h
                    refine ⟨by omega, by omega, h7, ?_⟩
                    intro j hj1 hj2
                    interval_cases j <;> omega
                  · rw [hneg 7 _ h7] at h
                    simp at h
  · intro h
    have hpe : passEntry arch yearOf (some t) = none := by
      simp [passEntry, resumeState, h]
    simp only [genStartupGo, hpe]
  · intro i hi l hl
    have hpe : passEntry arch yearOf none
        = some (i, 0, some (0 : ℚ), none, none) := by
      simp [passEntry, hi]
    simp only [genStartupGo, hpe] at hl
    split at hl
    · simp only [List.head?_cons, Option.some.injEq] at hl
      subst hl
      rfl
    · split at hl
      · simp only [List.head?_cons, Option.some.injEq] at hl
        subst hl
        rfl
      · simp only [List.head?_cons, Option.some.injEq] at hl
        subst hl
        rfl

/-- Witness for C6 amended on the concrete two-year archive: the
reversed scan lands on slot 8, whose year 2016 is ≥ the target 2016. -/
theorem C6_amended_witness :
    2016 ≤ A6.yearAt 8 ∧ A6.yearAt 8 ≠ 0 :=
  ⟨((C6_amended A6 id id 2016 0 1 0).2.1 8 (by decide)).2.2.1,
   by decide⟩

/-! ## C8 — the outer loop restarts the pass internally -/

/-- Helper: the first pass of a trace records exactly the `lastTimestamp`
value the invocation was entered with. -/
theorem genStartupGo_head_inputTs (arch : Archive) (yearOf todOf : ℕ → ℕ)
    (innerFuel : ℕ) :
    ∀ fuel ts l, (genStartupGo arch yearOf todOf innerFuel fuel ts).head?
      = some l → l.inputTs = ts := by
  intro fuel
  cases fuel with
  | zero =>
    intro ts l h
    simp [genStartupGo] at h
  | succ fuel =>
    intro ts l h
    cases hpe : passEntry arch yearOf ts with
    | none =>
      simp only [genStartupGo, hpe] at h
      simp at h
    | some e =>
      obtain ⟨yi, startRec, lastRain, lastDate, recDt⟩ := e
      simp only [genStartupGo, hpe] at h
      split at h
      · simp only [List.head?_cons, Option.some.injEq] at h
        subst h
        rfl
      · split at h
        · simp only [List.head?_cons, Option.some.injEq] at h
          subst h
          rfl
        · simp only [List.head?_cons, Option.some.injEq] at h
          subst h
          rfl

/-- C8 counterexample: on a static three-record archive, a single
invocation entered with no timestamp performs two traversals (two
HISTORY_FILE fetches), not exactly one: after the first pass exhausts the
years, the loop restarts itself with the last processed record's
timestamp and only then hits the line-867 break. -/
theorem C8_counterexample :
    (genStartupGo A8 (fun _ => 2017) id 20 10 none).length = 2 ∧
    (2 : ℕ) ≠ 1 :=
  ⟨by decide, by decide⟩

/-- C8 amended: a single invocation of `genStartupRecords` loops
internally: each pass after the first is entered with exactly the
previous pass's output `lastTimestamp` (the last processed record's
timestamp) — the re-read with an updated timestamp happens inside the
invocation, not by the caller re-invoking — and on the concrete
three-record archive the invocation makes two such chained passes,
re-entering with the timestamp 200 of the last record read. -/
theorem C8_amended :
    (∀ (arch : Archive) (yearOf todOf : ℕ → ℕ) (innerFuel fuel : ℕ)
      (ts : Option ℕ) (i : ℕ) (p q : PassLog),
      (genStartupGo arch yearOf todOf innerFuel fuel ts)[i]? = some p →
      (genStartupGo arch yearOf todOf innerFuel fuel ts)[i + 1]? = some q →
      q.inputTs = p.outputTs) ∧
    (genStartupGo A8 (fun _ => 2017) id 20 10 none).map PassLog.inputTs
      = [none, some 200] ∧
    (genStartupGo A8 (fun _ => 2017) id 20 10 none).map PassLog.outputTs
      = [some 200, some 200] := by
  refine ⟨?_, by decide, by decide⟩
  intro arch yearOf todOf innerFuel fuel
  induction fuel with
  | zero =>
    intro ts i p q hp hq
    simp [genStartupGo] at hp
  | succ fuel ih =>
    intro ts i p q hp hq
    cases hpe : passEntry arch yearOf ts with
    | none =>
      simp only [genStartupGo, hpe] at hp
      simp at hp
    | some e =>
      obtain ⟨yi, startRec, lastRain, lastDate, recDt⟩ := e
      simp only [genStartupGo, hpe] at hp hq
      by_cases hbrk : yi = 7 ∧ (startRec : ℤ) = (arch.countAt 7 : ℤ) - 1
      · rw [if_pos hbrk] at hp hq
        rw [List.getElem?_cons_succ] at hq
        simp at hq
      · rw [if_neg hbrk] at hp hq
        cases ht2 : (innerLoop arch todOf innerFuel yi startRec
            lastRain lastDate recDt).2.2.2.2 with
        | none =>
          rw [ht2] at hp hq
          rw [List.getElem?_cons_succ] at hq
          simp at hq
        | some t2 =>
          rw [ht2] at hp hq
          cases i with
          | zero =>
            rw [List.getElem?_cons_zero] at hp
            rw [List.getElem?_cons_succ] at hq
            injection hp with hp
            subst hp
            cases hrest : genStartupGo arch yearOf todOf innerFuel fuel
                (some t2) with
            | nil =>
              rw [hrest] at hq
              simp at hq
            | cons r rest2 =>
              rw [hrest] at hq
              rw [List.getElem?_cons_zero] at hq
              injection hq with hq
              subst hq
              exact genStartupGo_head_inputTs arch yearOf todOf innerFuel
                fuel (some t2) r (by rw [hrest]; rfl)
          | succ j =>
            rw [List.getElem?_cons_succ] at hp hq
            exact ih (some t2) j p q hp hq

/-- Witness for C8 amended: on the concrete archive the second pass's
input timestamp equals the first pass's output timestamp. -/
theorem C8_amended_witness :
    ((genStartupGo A8 (fun _ => 2017) id 20 10 none).get
        ⟨1, by decide⟩).inputTs =
      ((genStartupGo A8 (fun _ => 2017) id 20 10 none).get
        ⟨0, by decide⟩).outputTs :=
  C8_amended.1 A8 (fun _ => 2017) id 20 10 none 0
    ((genStartupGo A8 (fun _ => 2017) id 20 10 none).get ⟨0, by decide⟩)
    ((genStartupGo A8 (fun _ => 2017) id 20 10 none).get ⟨1, by decide⟩)
    (List.getElem?_eq_getElem (by decide)) (List.getElem?_eq_getElem (by decide))

/-! ## C10 — the search probes seed the archive rain baseline -/

/-- Helper: once the search has probed (and whenever it starts with a
probe already recorded), its returned last-probe component is `some`. -/
theorem binSearchGo_probe_isSome (ts : ℕ → ℕ) (target : ℕ) :
    ∀ fuel lower upper m,
      ((binSearchGo ts target fuel lower upper (some m)).2).isSome := by
  intro fuel
  induction fuel with
  | zero =>
    intro l u m
    simp [binSearchGo]
  | succ fuel ih =>
    intro l u m
    simp only [binSearchGo]
    split_ifs <;> simp [ih]

/-- Helper: a search over at least two records always probes at least
once, so it returns a last-probed index. -/
theorem searchProbe_isSome (ts : ℕ → ℕ) (target count : ℕ)
    (h2 : 2 ≤ count) :
    ((searchStartRecord ts target count).2).isSome := by
  obtain ⟨c, rfl⟩ : ∃ c, count = c + 1 := ⟨count - 1, by omega⟩
  simp only [searchStartRecord, binSearchGo]
  rw [if_neg (by omega : ¬ (0 : ℕ) = c + 1 - 1)]
  split_ifs <;> simp [binSearchGo_probe_isSome]

/-- Helper: when the pagination loop enters a year at a start record
strictly below `count − 1`, the first yielded packet is exactly the
packet built from the start record with the incoming rain baseline and
previous record date. -/
theorem innerLoop_packets_cons (arch : Archive) (todOf : ℕ → ℕ)
    (fuel yi s : ℕ) (lr : Option ℚ) (ld rd : Option ℕ)
    (h7 : 7 ≤ yi) (hlt : (s : ℤ) < (arch.countAt yi : ℤ) - 1) :
    ∃ rest, (innerLoop arch todOf (fuel + 1) yi s lr ld rd).2.1 =
      (archPacketOf todOf (arch.recordAt yi s) lr ld).1 :: rest := by
  simp only [innerLoop]
  rw [if_neg (by omega : ¬ yi < 7)]
  by_cases hclip : (arch.countAt yi : ℤ) ≤ 100 + (s : ℤ)
  · rw [if_pos hclip]
    have hrc : (0 : ℤ) < (arch.countAt yi : ℤ) - (s : ℤ) - 1 := by omega
    rw [if_pos hrc]
    obtain ⟨k, hk⟩ : ∃ k,
        ((arch.countAt yi : ℤ) - (s : ℤ) - 1).toNat = k + 1 :=
      ⟨((arch.countAt yi : ℤ) - (s : ℤ) - 1).toNat - 1, by omega⟩
    rw [hk]
    simp only [recordsFrom, processRecords]
    by_cases hend : (arch.countAt yi : ℤ) - 1 ≤ ((s + (k + 1) : ℕ) : ℤ)
    · rw [if_pos hend]
      exact ⟨_, rfl⟩
    · rw [if_neg hend]
      exact ⟨_, rfl⟩
  · rw [if_neg hclip]
    rw [if_pos (by norm_num : (0 : ℤ) < 100)]
    obtain ⟨k, hk⟩ : ∃ k, ((100 : ℤ)).toNat = k + 1 := ⟨99, by decide⟩
    rw [hk]
    simp only [recordsFrom, processRecords]
    by_cases hend : (arch.countAt yi : ℤ) - 1 ≤ ((s + (k + 1) : ℕ) : ℤ)
    · rw [if_pos hend]
      exact ⟨_, rfl⟩
    · rw [if_neg hend]
      exact ⟨_, rfl⟩

/-- C10: a pass resumed from a timestamp over a year of at least two
records enters pagination with its rain baseline seeded from the last
record the binary search probed (lines 843 and 911-922), so the first
yielded packet's incremental rain is computed relative to that probed
record's daily rain — not absent, as it would be with no baseline. -/
theorem C10_probe_baseline (arch : Archive) (yearOf todOf : ℕ → ℕ)
    (t yi s fuel : ℕ)
    (hy : findYearIndexTs arch (yearOf t) = some yi)
    (h7 : 7 ≤ yi)
    (hc : 2 ≤ arch.countAt yi)
    (hs : s = (searchStartRecord (fun j => (arch.recordAt yi j).recTime) t
      (arch.countAt yi)).1)
    (hlt : (s : ℤ) < (arch.countAt yi : ℤ) - 1)
    (hrain : (arch.recordAt yi s).dailyRainRaw ≠ 2147483647) :
    ∃ m, (searchStartRecord (fun j => (arch.recordAt yi j).recTime) t
        (arch.countAt yi)).2 = some m ∧
      resumeState arch yearOf t = some (yi, s,
        some (((arch.recordAt yi m).dailyRainRaw : ℚ) / 10), some t,
        some ((arch.recordAt yi m).recTime)) ∧
      (∃ rest, (innerLoop arch todOf (fuel + 1) yi s
          (some (((arch.recordAt yi m).dailyRainRaw : ℚ) / 10)) (some t)
          (some ((arch.recordAt yi m).recTime))).2.1 =
        (archPacketOf todOf (arch.recordAt yi s)
          (some (((arch.recordAt yi m).dailyRainRaw : ℚ) / 10))
          (some t)).1 :: rest) ∧
      (archPacketOf todOf (arch.recordAt yi s)
          (some (((arch.recordAt yi m).dailyRainRaw : ℚ) / 10))
          (some t)).1.rain =
        (if todOf t > todOf (arch.recordAt yi s).recTime ∨
            ((arch.recordAt yi m).dailyRainRaw : ℚ) / 10 >
              ((arch.recordAt yi s).dailyRainRaw : ℚ) / 10
         then some 0
         else some (((arch.recordAt yi s).dailyRainRaw : ℚ) / 10 -
            ((arch.recordAt yi m).dailyRainRaw : ℚ) / 10)) := by
  obtain ⟨m, hm⟩ := Option.isSome_iff_exists.mp
    (searchProbe_isSome (fun j => (arch.recordAt yi j).recTime) t
      (arch.countAt yi) hc)
  refine ⟨m, hm, ?_, ?_, ?_⟩
  · simp only [resumeState, hy, Option.map_some', hm, ← hs]
  · exact innerLoop_packets_cons arch todOf fuel yi s _ _ _ h7 hlt
  · simp only [archPacketOf]
    rw [if_neg hrain]

/-- Witness for C10 on the concrete three-record archive resumed from
timestamp 150: the search lands on start record 1 with last probe at
record 0, whose daily rain (raw 10, i.e. 1.0 mm) seeds the baseline, and
the first yielded packet's rain is 2.0 − 1.0 = 1.0 mm, not absent. -/
theorem C10_probe_baseline_witness :
    resumeState A8 (fun _ => 2017) 150 = some (7, 1,
      some (((A8.recordAt 7 0).dailyRainRaw : ℚ) / 10), some 150,
      some ((A8.recordAt 7 0).recTime)) ∧
    (archPacketOf id (A8.recordAt 7 1)
        (some (((A8.recordAt 7 0).dailyRainRaw : ℚ) / 10))
        (some 150)).1.rain =
      (if id 150 > id (A8.recordAt 7 1).recTime ∨
          ((A8.recordAt 7 0).dailyRainRaw : ℚ) / 10 >
            ((A8.recordAt 7 1).dailyRainRaw : ℚ) / 10
       then some 0
       else some (((A8.recordAt 7 1).dailyRainRaw : ℚ) / 10 -
          ((A8.recordAt 7 0).dailyRainRaw : ℚ) / 10)) := by
  obtain ⟨m, h1, h2, _, h4⟩ := C10_probe_baseline A8 (fun _ => 2017) id
    150 7 1 5 (by decide) (by decide) (by decide) (by decide)
    (by decide) (by decide)
  have hm : m = 0 := by
    have h0 : (searchStartRecord (fun j => (A8.recordAt 7 j).recTime) 150
        (A8.countAt 7)).2 = some 0 := by decide
    exact Option.some.inj (h1.symm.trans h0)
  subst hm
  exact ⟨h2, h4⟩

end HP1000
